import Mathlib

/-!
Verification development for the `ethserver` package of fabric-chaincode-evm
(`src/ethserver/server.go`).  Go strings and byte slices are modelled as lists
of characters (`GoStr`); the fabric SDK client and the protobuf library are
external collaborators and are modelled as oracle records (`Gateway`,
`ProtoCodec`) whose behaviour the theorems quantify over.
-/

namespace ethserver

/-- A Go string / byte slice, modelled as a list of characters (one per byte).
`string(b)` and `[]byte(s)` conversions are the identity in this model. -/
abbrev GoStr := List Char

/-- `var channelID = "channel1"` (server.go line 72). -/
def channelID : GoStr := "channel1".toList

/-- `var zeroAddress = make([]byte, 20)` (server.go line 73): twenty zero bytes. -/
def zeroAddress : GoStr := List.replicate 20 (Char.ofNat 0)

/-- The literal string `0x`, used both as the separator in `Strip0xFromHex`
and as the prefix added by `Call` / `Accounts`. -/
def lit0x : GoStr := ['0', 'x']

def evmsccName : GoStr := "evmscc".toList

def qsccName : GoStr := "qscc".toList

def getCodeFcn : GoStr := "getCode".toList

def accountFcn : GoStr := "account".toList

def getTxByIDName : GoStr := "GetTransactionByID".toList

def getBlockByTxIDName : GoStr := "GetBlockByTxID".toList

/-- Hex digit characters, lowercase, as produced by Go `encoding/hex`. -/
def hexDigitChar (n : Nat) : Char :=
  (String.toList "0123456789abcdef").getD n '0'

/-- Go `hex.EncodeToString`: each byte becomes two lowercase hex digits. -/
def hexEncodeToString (b : GoStr) : GoStr :=
  b.flatMap (fun c => [hexDigitChar (c.toNat / 16), hexDigitChar (c.toNat % 16)])

/-- Numeric value of a hex digit character, as accepted by Go `encoding/hex`. -/
def hexDigitVal (c : Char) : Option Nat :=
  if '0' ≤ c ∧ c ≤ '9' then some (c.toNat - '0'.toNat)
  else if 'a' ≤ c ∧ c ≤ 'f' then some (c.toNat - 'a'.toNat + 10)
  else if 'A' ≤ c ∧ c ≤ 'F' then some (c.toNat - 'A'.toNat + 10)
  else none

/-- Go `hex.DecodeString`: pairs of hex digits become bytes; odd length or an
invalid digit is an error (the exact error text is abbreviated here). -/
def hexDecodeString : GoStr → Except GoStr GoStr
  | [] => Except.ok []
  | [_] => Except.error ("odd length hex string".toList)
  | a :: b :: rest =>
    match hexDigitVal a, hexDigitVal b with
    | some x, some y =>
      match hexDecodeString rest with
      | Except.ok tl => Except.ok (Char.ofNat (16 * x + y) :: tl)
      | Except.error e => Except.error e
    | _, _ => Except.error ("invalid hex byte".toList)

/-- Go `strconv.FormatUint(n, 10)`: the decimal rendering of `n`. -/
def formatUint10 (n : Nat) : GoStr := (toString n).toList

/-- Go `strings.Split(s, "0x")` specialised to the separator `"0x"` used by the
source: greedy left-to-right splitting at each (non-overlapping) occurrence of
`0x`.  `acc` holds the current chunk, reversed. -/
def split0xAux : GoStr → GoStr → List GoStr
  | acc, [] => [acc.reverse]
  | acc, '0' :: 'x' :: rest => acc.reverse :: split0xAux [] rest
  | acc, c :: rest => split0xAux (c :: acc) rest

/-- `Strip0xFromHex` (server.go lines 316-322): split the string on `"0x"` and
return the final piece. -/
def Strip0xFromHex (addr : GoStr) : GoStr :=
  (split0xAux [] addr).getLastD []

/-- `true` iff the string begins with the two characters `0x`; an occurrence
of `0x` at index `i` of `s` is `starts0x (s.drop i) = true`. -/
def starts0x : GoStr → Bool
  | c :: d :: _ => c == '0' && d == 'x'
  | _ => false

/-- The index of the last occurrence of the substring `0x` in `s`, if any
(`lastIndex0x_last_occurrence` below proves it is exactly that). -/
def lastIndex0x : GoStr → Option Nat
  | [] => none
  | c :: rest =>
    match lastIndex0x rest with
    | some j => some (j + 1)
    | none => if starts0x (c :: rest) then some 0 else none

/-- Modelled from the spec: `stripPrefix(s)` "returns the substring following
the last occurrence of the literal 0x in s; if 0x is absent, returns s
unchanged" (spec section 4.1).  Stated via `lastIndex0x`. -/
def spec_strip0x (s : GoStr) : GoStr :=
  match lastIndex0x s with
  | none => s
  | some i => s.drop (i + 2)

/-- `type DataParam string` (server.go line 47). -/
abbrev DataParam := GoStr

/-- `type Params struct` (server.go lines 48-56). -/
structure Params where
  From : GoStr
  To : GoStr
  Gas : GoStr
  GasPrice : GoStr
  Value : GoStr
  Data : GoStr
  Nonce : GoStr
deriving DecidableEq

/-- `type TxReceipt struct` (server.go lines 58-65).  `GasUsed` and
`CumulativeGasUsed` are Go `int`s holding only the literal `0` here. -/
structure TxReceipt where
  TransactionHash : GoStr
  BlockHash : GoStr
  BlockNumber : GoStr
  ContractAddress : GoStr
  GasUsed : Int
  CumulativeGasUsed : Int
deriving DecidableEq

/-- How a method invocation ends: a runtime/log panic (no return), a returned
non-nil error (the reply was never assigned on these paths in the source), or
a normal return with the reply value. -/
inductive Outcome (α : Type) where
  | panic : GoStr → Outcome α
  | err : GoStr → Outcome α
  | ok : α → Outcome α
deriving DecidableEq

/-- Observable interactions of a method with the fabric SDK client: channel
client creation, chaincode queries, transaction execution, and `Close`. -/
inductive Event where
  | newClient : Event
  | query : GoStr → GoStr → List GoStr → Event
  | executeTx : GoStr → GoStr → List GoStr → Event
  | close : Event
deriving DecidableEq

/-- The fabric SDK channel client, an external collaborator, modelled as an
oracle: whether `NewChannelClient` fails, and for each query / ExecuteTx the
pair of returned value and optional error (Go returns both slots). -/
structure Gateway where
  newClientErr : Option GoStr
  query : GoStr → GoStr → List GoStr → GoStr × Option GoStr
  executeTx : GoStr → GoStr → List GoStr → GoStr × Option GoStr

/- Protobuf message types (hyperledger fabric protos), with exactly the fields
the source reads.  Pointer-valued fields that the source nil-checks or reaches
through nil-safe getters are `Option`s. -/

/-- `common.Envelope`: only its `Payload` bytes are read. -/
structure Envelope where
  Payload : GoStr

/-- `peer.ProcessedTransaction`: `GetTransactionEnvelope` may return nil. -/
structure ProcessedTransaction where
  TransactionEnvelope : Option Envelope

/-- `common.BlockHeader`: its height and its hash.  `Hash()` is computed by the
external fabric library, so it is modelled as an attribute of the header. -/
structure BlockHeader where
  Number : Nat
  HashValue : GoStr

/-- `common.Block`: `GetHeader` may return nil. -/
structure Block where
  Header : Option BlockHeader

/-- `common.Payload`: only its `Data` bytes are read. -/
structure Payload where
  Data : GoStr

/-- `peer.TransactionAction`: only its `Payload` bytes are read. -/
structure TransactionAction where
  Payload : GoStr

/-- `peer.Transaction`: its list of actions (a nil slice is the empty list). -/
structure Transaction where
  Actions : List TransactionAction

/-- `peer.ChaincodeEndorsedAction`: `ProposalResponsePayload` is nil-checked. -/
structure ChaincodeEndorsedAction where
  ProposalResponsePayload : Option GoStr

/-- `peer.ChaincodeActionPayload`: raw proposal payload bytes plus the
nil-checked endorsed action. -/
structure ChaincodeActionPayload where
  ChaincodeProposalPayload : GoStr
  Action : Option ChaincodeEndorsedAction

/-- `peer.ChaincodeProposalPayload`: only its `Input` bytes are read. -/
structure ChaincodeProposalPayload where
  Input : GoStr

/-- `peer.ProposalResponsePayload`: `Extension` is nil-checked. -/
structure ProposalResponsePayload where
  Extension : Option GoStr

/-- `peer.Response`: only its `Payload` bytes are read. -/
structure Response where
  Payload : GoStr

/-- `peer.ChaincodeAction`: `GetResponse` may return nil. -/
structure ChaincodeAction where
  Response : Option Response

/-- `peer.ChaincodeInput`: the invocation argument list. -/
structure ChaincodeInput where
  Args : List GoStr

/-- `peer.ChaincodeSpec`: `GetInput` may return nil. -/
structure ChaincodeSpec where
  Input : Option ChaincodeInput

/-- `peer.ChaincodeInvocationSpec`: `GetChaincodeSpec` may return nil. -/
structure ChaincodeInvocationSpec where
  ChaincodeSpec : Option ChaincodeSpec

/-- `proto.Unmarshal` for each message type the source decodes — the protobuf
library is an external collaborator, so decoding is an oracle from the raw
bytes to the decoded message or an error. -/
structure ProtoCodec where
  processedTransaction : GoStr → Except GoStr ProcessedTransaction
  block : GoStr → Except GoStr Block
  payload : GoStr → Except GoStr Payload
  transaction : GoStr → Except GoStr Transaction
  chaincodeActionPayload : GoStr → Except GoStr ChaincodeActionPayload
  chaincodeProposalPayload : GoStr → Except GoStr ChaincodeProposalPayload
  proposalResponsePayload : GoStr → Except GoStr ProposalResponsePayload
  chaincodeAction : GoStr → Except GoStr ChaincodeAction
  chaincodeInvocationSpec : GoStr → Except GoStr ChaincodeInvocationSpec

/-- `tx.GetTransactionEnvelope().GetPayload()`: nil-safe getters, nil bytes
are the empty string. -/
def envelopePayload : Option Envelope → GoStr
  | none => []
  | some e => e.Payload

/-- `respPayload.GetResponse().GetPayload()`: nil-safe getters. -/
def responsePayloadOf (a : ChaincodeAction) : GoStr :=
  match a.Response with
  | none => []
  | some r => r.Payload

def errCreatingClientMsg : GoStr := "error creating client".toList

def errNoPayloadMsg : GoStr := "no payload in ChaincodeActionPayload".toList

def errMissingExtensionMsg : GoStr := "response payload is missing extension".toList

def indexOutOfRangeMsg : GoStr := "runtime error: index out of range".toList

def nilDerefMsg : GoStr := "runtime error: invalid memory address or nil pointer dereference".toList

/-- `GetCode` (server.go lines 111-134).  A failed `NewChannelClient` is a
`log.Panic`; a failed query is only logged — the reply is still assigned from
the returned value and a nil error is returned. -/
def GetCode (gw : Gateway) (args : DataParam) : Outcome GoStr × List Event :=
  match gw.newClientErr with
  | some e => (Outcome.panic (errCreatingClientMsg ++ e), [Event.newClient])
  | none =>
    match gw.query evmsccName getCodeFcn [Strip0xFromHex args] with
    | (value, _) =>
      (Outcome.ok value,
       [Event.newClient, Event.query evmsccName getCodeFcn [Strip0xFromHex args],
        Event.close])

/-- `Call` (server.go lines 136-160). -/
def Call (gw : Gateway) (params : Params) : Outcome GoStr × List Event :=
  match gw.newClientErr with
  | some e => (Outcome.err e, [Event.newClient])
  | none =>
    match gw.query evmsccName (Strip0xFromHex params.To) [Strip0xFromHex params.Data] with
    | (_, some e) =>
      (Outcome.err e,
       [Event.newClient,
        Event.query evmsccName (Strip0xFromHex params.To) [Strip0xFromHex params.Data],
        Event.close])
    | (value, none) =>
      (Outcome.ok (lit0x ++ hexEncodeToString value),
       [Event.newClient,
        Event.query evmsccName (Strip0xFromHex params.To) [Strip0xFromHex params.Data],
        Event.close])

/-- `SendTransaction` (server.go lines 162-194).  An empty `To` defaults to the
hex encoding of the zero address before stripping. -/
def SendTransaction (gw : Gateway) (params : Params) : Outcome GoStr × List Event :=
  match gw.newClientErr with
  | some e => (Outcome.err e, [Event.newClient])
  | none =>
    match gw.executeTx evmsccName
        (Strip0xFromHex (if params.To = [] then hexEncodeToString zeroAddress else params.To))
        [Strip0xFromHex params.Data] with
    | (_, some e) =>
      (Outcome.err e,
       [Event.newClient,
        Event.executeTx evmsccName
          (Strip0xFromHex (if params.To = [] then hexEncodeToString zeroAddress else params.To))
          [Strip0xFromHex params.Data],
        Event.close])
    | (txID, none) =>
      (Outcome.ok txID,
       [Event.newClient,
        Event.executeTx evmsccName
          (Strip0xFromHex (if params.To = [] then hexEncodeToString zeroAddress else params.To))
          [Strip0xFromHex params.Data],
        Event.close])

/-- `Accounts` (server.go lines 280-305).  A failed `NewChannelClient` is a
`log.Panic`; the reply is a single lowercased, `0x`-prefixed identity. -/
def Accounts (gw : Gateway) : Outcome (List GoStr) × List Event :=
  match gw.newClientErr with
  | some e => (Outcome.panic (errCreatingClientMsg ++ e), [Event.newClient])
  | none =>
    match gw.query evmsccName accountFcn [] with
    | (_, some e) =>
      (Outcome.err e, [Event.newClient, Event.query evmsccName accountFcn [], Event.close])
    | (value, none) =>
      (Outcome.ok [lit0x ++ value.map Char.toLower],
       [Event.newClient, Event.query evmsccName accountFcn [], Event.close])

/-- `GetPayloads` (server.go lines 324-358): decode the action payload, require
a non-nil endorsed action and proposal response payload, decode the nested
proposal payload and response payload, require a non-nil extension, and decode
the extension into a `ChaincodeAction`. -/
def GetPayloads (codec : ProtoCodec) (txAction : TransactionAction) :
    Except GoStr (ChaincodeProposalPayload × ChaincodeAction) :=
  match codec.chaincodeActionPayload txAction.Payload with
  | Except.error e => Except.error e
  | Except.ok ccPayload =>
    match ccPayload.Action with
    | none => Except.error errNoPayloadMsg
    | some act =>
      match act.ProposalResponsePayload with
      | none => Except.error errNoPayloadMsg
      | some prpBytes =>
        match codec.chaincodeProposalPayload ccPayload.ChaincodeProposalPayload with
        | Except.error e => Except.error e
        | Except.ok ccProposalPayload =>
          match codec.proposalResponsePayload prpBytes with
          | Except.error e => Except.error e
          | Except.ok pRespPayload =>
            match pRespPayload.Extension with
            | none => Except.error errMissingExtensionMsg
            | some ext =>
              match codec.chaincodeAction ext with
              | Except.error e => Except.error e
              | Except.ok respPayload => Except.ok (ccProposalPayload, respPayload)

/-- `GetTransactionReceipt` (server.go lines 196-278).  The error from
`NewChannelClient` at line 199 is discarded (the variable is reassigned at
line 203 without a check), so the model does not consult it; what a broken
client does inside `Query` is the gateway oracle's business.  No `Close` is
ever issued in this method.  `actions[0]` on an empty action list and
`args[0]` on an empty argument list are Go index-out-of-range panics, and
`.Args` behind a nil `ChaincodeSpec`/`Input` pointer is a nil dereference;
the block-header `Hash()` call on a nil header likewise panics, at the point
where the receipt literal is evaluated (line 257). -/
def GetTransactionReceipt (gw : Gateway) (codec : ProtoCodec) (param : DataParam) :
    Outcome TxReceipt × List Event :=
  let args := [channelID, param]
  let ev1 := [Event.newClient, Event.query qsccName getTxByIDName args]
  match gw.query qsccName getTxByIDName args with
  | (_, some e) => (Outcome.err e, ev1)
  | (t, none) =>
    match codec.processedTransaction t with
    | Except.error e => (Outcome.err e, ev1)
    | Except.ok tx =>
      let ev2 := ev1 ++ [Event.query qsccName getBlockByTxIDName args]
      match gw.query qsccName getBlockByTxIDName args with
      | (_, some e) => (Outcome.err e, ev2)
      | (b, none) =>
        match codec.block b with
        | Except.error e => (Outcome.err e, ev2)
        | Except.ok block =>
          match codec.payload (envelopePayload tx.TransactionEnvelope) with
          | Except.error e => (Outcome.err e, ev2)
          | Except.ok payload =>
            match codec.transaction payload.Data with
            | Except.error e => (Outcome.err e, ev2)
            | Except.ok txActions =>
              match txActions.Actions with
              | [] => (Outcome.panic indexOutOfRangeMsg, ev2)
              | act :: _ =>
                match GetPayloads codec act with
                | Except.error e => (Outcome.err e, ev2)
                | Except.ok (ccPropPayload, respPayload) =>
                  match codec.chaincodeInvocationSpec ccPropPayload.Input with
                  | Except.error e => (Outcome.err e, ev2)
                  | Except.ok invokeSpec =>
                    match block.Header with
                    | none => (Outcome.panic nilDerefMsg, ev2)
                    | some blkHeader =>
                      let receipt : TxReceipt :=
                        { TransactionHash := param
                          BlockHash := hexEncodeToString blkHeader.HashValue
                          BlockNumber := formatUint10 blkHeader.Number
                          ContractAddress := []
                          GasUsed := 0
                          CumulativeGasUsed := 0 }
                      match invokeSpec.ChaincodeSpec with
                      | none => (Outcome.panic nilDerefMsg, ev2)
                      | some ccSpec =>
                        match ccSpec.Input with
                        | none => (Outcome.panic nilDerefMsg, ev2)
                        | some inp =>
                          match inp.Args with
                          | [] => (Outcome.panic indexOutOfRangeMsg, ev2)
                          | a0 :: _ =>
                            match hexDecodeString a0 with
                            | Except.error e => (Outcome.err e, ev2)
                            | Except.ok callee =>
                              if callee = zeroAddress then
                                (Outcome.ok { receipt with
                                   ContractAddress := responsePayloadOf respPayload }, ev2)
                              else
                                (Outcome.ok receipt, ev2)


/-! ## Concrete worlds used by witnesses and counterexamples -/

/-- A concrete transaction identifier. -/
def wParam : GoStr := "txid1".toList

def wEnvBytes : GoStr := ['e', 'n', 'v']

def wTx : ProcessedTransaction := { TransactionEnvelope := some { Payload := wEnvBytes } }

def wHashBytes : GoStr := [Char.ofNat 171, Char.ofNat 205]

def wHdr : BlockHeader := { Number := 7, HashValue := wHashBytes }

def wBlock : Block := { Header := some wHdr }

def wPayload : Payload := { Data := ['d', 't'] }

def wAct : TransactionAction := { Payload := ['a', 'c'] }

def wTxa : Transaction := { Actions := [wAct] }

def wCCAP : ChaincodeActionPayload :=
  { ChaincodeProposalPayload := ['c', 'p']
    Action := some { ProposalResponsePayload := some ['p', 'r'] } }

def wCCPP : ChaincodeProposalPayload := { Input := ['i', 'n'] }

def wPRP : ProposalResponsePayload := { Extension := some ['e', 'x'] }

/-- The contract address bytes the EVM chaincode returns for a creation. -/
def wAddrBytes : GoStr := "newaddr".toList

def wCA : ChaincodeAction := { Response := some { Payload := wAddrBytes } }

/-- Forty `'0'` characters: the hex encoding of the zero address. -/
def wZeroHex : GoStr := List.replicate 40 '0'

/-- An invocation whose first argument is the hex-encoded zero address
(a contract-creation transaction). -/
def wSpecCreate : ChaincodeInvocationSpec :=
  { ChaincodeSpec := some { Input := some { Args := [wZeroHex] } } }

/-- A non-zero callee address, hex encoded. -/
def wCalleeHex : GoStr := "00000000000000000000000000000000000000ff".toList

/-- An invocation whose first argument is a non-zero callee address. -/
def wSpecCall : ChaincodeInvocationSpec :=
  { ChaincodeSpec := some { Input := some { Args := [wCalleeHex] } } }

/-- An invocation with an empty argument list. -/
def wSpecNoArgs : ChaincodeInvocationSpec :=
  { ChaincodeSpec := some { Input := some { Args := [] } } }

/-- A protobuf codec whose decoders succeed with the fixed messages above
(decoding a creation transaction). -/
def wCodec : ProtoCodec :=
  { processedTransaction := fun _ => Except.ok wTx
    block := fun _ => Except.ok wBlock
    payload := fun _ => Except.ok wPayload
    transaction := fun _ => Except.ok wTxa
    chaincodeActionPayload := fun _ => Except.ok wCCAP
    chaincodeProposalPayload := fun _ => Except.ok wCCPP
    proposalResponsePayload := fun _ => Except.ok wPRP
    chaincodeAction := fun _ => Except.ok wCA
    chaincodeInvocationSpec := fun _ => Except.ok wSpecCreate }

/-- Same codec, but the decoded invocation is a plain (non-creation) call. -/
def wCodecCall : ProtoCodec :=
  { wCodec with chaincodeInvocationSpec := fun _ => Except.ok wSpecCall }

/-- Same codec, but the decoded transaction has an empty action list. -/
def wCodecEmptyActions : ProtoCodec :=
  { wCodec with transaction := fun _ => Except.ok { Actions := [] } }

/-- Same codec, but the decoded invocation has an empty argument list. -/
def wCodecEmptyArgs : ProtoCodec :=
  { wCodec with chaincodeInvocationSpec := fun _ => Except.ok wSpecNoArgs }

/-- Same codec, but the proposal response payload has a nil extension. -/
def wCodecNoExtension : ProtoCodec :=
  { wCodec with proposalResponsePayload := fun _ => Except.ok { Extension := none } }

def wQVal : GoStr := ['v', 'a', 'l']

def wTid : GoStr := "tid9".toList

/-- A gateway whose connection succeeds and whose queries and invokes all
succeed with fixed results. -/
def wGw : Gateway :=
  { newClientErr := none
    query := fun _ _ _ => (wQVal, none)
    executeTx := fun _ _ _ => (wTid, none) }

def wQErr : GoStr := "boom".toList

/-- A gateway whose queries and invokes fail (returning a value slot too,
as the Go API does). -/
def wGwQFail : Gateway :=
  { wGw with
    query := fun _ _ _ => (wQVal, some wQErr)
    executeTx := fun _ _ _ => (wTid, some wQErr) }

def wConnErr : GoStr := "no conn".toList

/-- A gateway whose `NewChannelClient` fails. -/
def wGwConnFail : Gateway := { wGw with newClientErr := some wConnErr }

/-- A `Params` value with all fields empty. -/
def wParamsEmpty : Params :=
  { From := []
    To := []
    Gas := []
    GasPrice := []
    Value := []
    Data := ['d', 'a']
    Nonce := [] }

/-- A `Params` value whose `To` is exactly the string `0x`. -/
def wParamsTo0x : Params := { wParamsEmpty with To := lit0x }

/-- A `Params` value with a non-empty `To`. -/
def wParamsTo : Params := { wParamsEmpty with To := "0xabcd".toList }

/-- The receipt produced in the `wGw`/`wCodec` (creation) world. -/
def wReceiptCreate : TxReceipt :=
  { TransactionHash := wParam
    BlockHash := hexEncodeToString wHashBytes
    BlockNumber := formatUint10 7
    ContractAddress := wAddrBytes
    GasUsed := 0
    CumulativeGasUsed := 0 }

/-- The trace of a `GetTransactionReceipt` run that reached both queries. -/
def wReceiptEvents : List Event :=
  [Event.newClient, Event.query qsccName getTxByIDName [channelID, wParam],
   Event.query qsccName getBlockByTxIDName [channelID, wParam]]





def wNoActionCCAP : ChaincodeActionPayload :=
  { ChaincodeProposalPayload := ['c', 'p'], Action := none }

def wCodecNoAction : ProtoCodec :=
  { wCodec with chaincodeActionPayload := fun _ => Except.ok wNoActionCCAP }

def ex0x1234 : GoStr := "0x1234".toList

def ex1234 : GoStr := "1234".toList

def exMulti0x : GoStr := "0xab0xcd".toList

def exCd : GoStr := "cd".toList


/-! ## Lemmas: `Strip0xFromHex` and the last occurrence of `0x` -/

theorem split0xAux_ne_nil : ∀ acc s, split0xAux acc s ≠ [] := by
  intro acc s
  induction acc, s using split0xAux.induct with
  | case1 acc => simp [split0xAux]
  | case2 acc rest ih => simp [split0xAux]
  | case3 acc c rest h ih =>
    rw [split0xAux.eq_3]
    · exact ih
    · exact h

theorem getLastD_irrel {α : Type} (l : List α) (d d' : α) (h : l ≠ []) :
    l.getLastD d = l.getLastD d' := by
  cases l with
  | nil => exact absurd rfl h
  | cons a t => rw [List.getLastD_cons, List.getLastD_cons]

theorem lastIndex0x_consx : ∀ rest : GoStr,
    lastIndex0x ('x' :: rest) = Option.map (fun j => j + 1) (lastIndex0x rest) := by
  intro rest
  cases rest with
  | nil => rfl
  | cons d w =>
    show (match lastIndex0x (d :: w) with
          | some j => some (j + 1)
          | none => if starts0x ('x' :: d :: w) then some 0 else none) = _
    cases hl : lastIndex0x (d :: w) with
    | some j => rfl
    | none => rfl

theorem lastIndex0x_cons0x (rest : GoStr) :
    lastIndex0x ('0' :: 'x' :: rest) =
      some (match lastIndex0x rest with | some j => j + 2 | none => 0) := by
  show (match lastIndex0x ('x' :: rest) with
        | some j => some (j + 1)
        | none => if starts0x ('0' :: 'x' :: rest) then some 0 else none) = _
  rw [lastIndex0x_consx]
  cases hl : lastIndex0x rest with
  | some j => rfl
  | none => rfl

theorem starts0x_false_of (c : Char) (rest : GoStr)
    (h : ∀ r : GoStr, c = '0' → rest = 'x' :: r → False) :
    starts0x (c :: rest) = false := by
  cases rest with
  | nil => rfl
  | cons d w =>
    show ((c == '0') && (d == 'x')) = false
    by_cases hc : c = '0'
    · by_cases hd : d = 'x'
      · exact absurd (h w hc (by rw [hd])) (fun q => q)
      · simp [hd]
    · simp [hc]

theorem lastIndex0x_cons_no0x (c : Char) (rest : GoStr)
    (h : starts0x (c :: rest) = false) :
    lastIndex0x (c :: rest) = Option.map (fun j => j + 1) (lastIndex0x rest) := by
  show (match lastIndex0x rest with
        | some j => some (j + 1)
        | none => if starts0x (c :: rest) then some 0 else none) = _
  cases hl : lastIndex0x rest with
  | some j => rfl
  | none => rw [h]; rfl

theorem split0xAux_getLastD : ∀ acc s : GoStr,
    (split0xAux acc s).getLastD [] =
      (match lastIndex0x s with
       | some i => s.drop (i + 2)
       | none => acc.reverse ++ s) := by
  intro acc s
  induction acc, s using split0xAux.induct with
  | case1 acc => simp [split0xAux, lastIndex0x]
  | case2 acc rest ih =>
    rw [split0xAux.eq_2, List.getLastD_cons,
        getLastD_irrel _ _ [] (split0xAux_ne_nil [] rest), ih, lastIndex0x_cons0x]
    cases hl : lastIndex0x rest with
    | some j => simp
    | none => simp
  | case3 acc c rest h ih =>
    rw [split0xAux.eq_3 _ _ _ h, ih,
        lastIndex0x_cons_no0x c rest (starts0x_false_of c rest h)]
    cases hl : lastIndex0x rest with
    | some j => simp
    | none => simp

theorem strip_eq_spec : ∀ s : GoStr, Strip0xFromHex s = spec_strip0x s := by
  intro s
  unfold Strip0xFromHex spec_strip0x
  rw [split0xAux_getLastD]
  cases hl : lastIndex0x s with
  | some i => rfl
  | none => simp

theorem lastIndex0x_append_0x : ∀ t : GoStr, lastIndex0x (t ++ lit0x) = some t.length := by
  intro t
  induction t with
  | nil => decide
  | cons c t ih =>
    show (match lastIndex0x (t ++ lit0x) with
          | some j => some (j + 1)
          | none => if starts0x (c :: (t ++ lit0x)) then some 0 else none) = _
    rw [ih]
    rfl

theorem strip_append_0x : ∀ t : GoStr, Strip0xFromHex (t ++ lit0x) = [] := by
  intro t
  rw [strip_eq_spec]
  unfold spec_strip0x
  rw [lastIndex0x_append_0x]
  simp only []
  apply List.drop_eq_nil_of_le
  simp [lit0x]

theorem lastIndex0x_last_occurrence : ∀ s : GoStr,
    (∀ i, lastIndex0x s = some i →
       starts0x (s.drop i) = true ∧ ∀ j, starts0x (s.drop j) = true → j ≤ i)
    ∧ (lastIndex0x s = none → ∀ j, starts0x (s.drop j) = false) := by
  intro s
  induction s with
  | nil =>
    constructor
    · intro i hi; exact Option.noConfusion hi
    · intro _ j; cases j <;> rfl
  | cons c rest ih =>
    obtain ⟨ihs, ihn⟩ := ih
    constructor
    · intro i hi
      cases hl : lastIndex0x rest with
      | some j =>
        have hcons : lastIndex0x (c :: rest) = some (j + 1) := by
          show (match lastIndex0x rest with
                | some j => some (j + 1)
                | none => if starts0x (c :: rest) then some 0 else none) = _
          rw [hl]
        rw [hcons] at hi
        cases hi
        obtain ⟨h1, h2⟩ := ihs j hl
        constructor
        · rw [List.drop_succ_cons]; exact h1
        · intro k hk
          cases k with
          | zero => exact Nat.zero_le _
          | succ k' =>
            rw [List.drop_succ_cons] at hk
            exact Nat.succ_le_succ (h2 k' hk)
      | none =>
        have hcons : lastIndex0x (c :: rest) =
            (if starts0x (c :: rest) then some 0 else none) := by
          show (match lastIndex0x rest with
                | some j => some (j + 1)
                | none => if starts0x (c :: rest) then some 0 else none) = _
          rw [hl]
        rw [hcons] at hi
        by_cases hs : starts0x (c :: rest) = true
        · rw [if_pos hs] at hi
          cases hi
          constructor
          · exact hs
          · intro k hk
            cases k with
            | zero => exact Nat.le_refl 0
            | succ k' =>
              rw [List.drop_succ_cons] at hk
              exact absurd hk (by rw [ihn hl k']; exact Bool.false_ne_true)
        · rw [if_neg hs] at hi
          exact Option.noConfusion hi
    · intro hn j
      cases hl : lastIndex0x rest with
      | some j' =>
        exfalso
        have hcons : lastIndex0x (c :: rest) = some (j' + 1) := by
          show (match lastIndex0x rest with
                | some j => some (j + 1)
                | none => if starts0x (c :: rest) then some 0 else none) = _
          rw [hl]
        rw [hcons] at hn
        exact Option.noConfusion hn
      | none =>
        have hcons : lastIndex0x (c :: rest) =
            (if starts0x (c :: rest) then some 0 else none) := by
          show (match lastIndex0x rest with
                | some j => some (j + 1)
                | none => if starts0x (c :: rest) then some 0 else none) = _
          rw [hl]
        rw [hcons] at hn
        have hs : starts0x (c :: rest) = false := by
          by_cases hs : starts0x (c :: rest) = true
          · rw [if_pos hs] at hn; exact Option.noConfusion hn
          · exact Bool.eq_false_iff.mpr hs
        cases j with
        | zero => exact hs
        | succ j' => rw [List.drop_succ_cons]; exact ihn hl j'

/-! ## The success path of `GetTransactionReceipt` -/

/-- Characterisation of the success path of `GetTransactionReceipt`: when both
queries and every decode step succeed, the receipt is exactly as composed at
server.go lines 255-273. -/
theorem receipt_ok_spec
    (gw : Gateway) (codec : ProtoCodec) (param : DataParam)
    (tb bb : GoStr) (tx : ProcessedTransaction) (blk : Block) (hdr : BlockHeader)
    (pl : Payload) (txa : Transaction) (act : TransactionAction)
    (rest : List TransactionAction)
    (ccpp : ChaincodeProposalPayload) (resp : ChaincodeAction)
    (ispec : ChaincodeInvocationSpec) (ccSpec : ChaincodeSpec) (inp : ChaincodeInput)
    (a0 : GoStr) (arest : List GoStr) (callee : GoStr)
    (hq1 : gw.query qsccName getTxByIDName [channelID, param] = (tb, none))
    (hc1 : codec.processedTransaction tb = Except.ok tx)
    (hq2 : gw.query qsccName getBlockByTxIDName [channelID, param] = (bb, none))
    (hc2 : codec.block bb = Except.ok blk)
    (hc3 : codec.payload (envelopePayload tx.TransactionEnvelope) = Except.ok pl)
    (hc4 : codec.transaction pl.Data = Except.ok txa)
    (hacts : txa.Actions = act :: rest)
    (hgp : GetPayloads codec act = Except.ok (ccpp, resp))
    (hc6 : codec.chaincodeInvocationSpec ccpp.Input = Except.ok ispec)
    (hhdr : blk.Header = some hdr)
    (hspec : ispec.ChaincodeSpec = some ccSpec)
    (hinp : ccSpec.Input = some inp)
    (hargs : inp.Args = a0 :: arest)
    (hdec : hexDecodeString a0 = Except.ok callee) :
    GetTransactionReceipt gw codec param =
      (Outcome.ok
        { TransactionHash := param
          BlockHash := hexEncodeToString hdr.HashValue
          BlockNumber := formatUint10 hdr.Number
          ContractAddress := if callee = zeroAddress then responsePayloadOf resp else []
          GasUsed := 0
          CumulativeGasUsed := 0 },
       [Event.newClient, Event.query qsccName getTxByIDName [channelID, param],
        Event.query qsccName getBlockByTxIDName [channelID, param]]) := by
  unfold GetTransactionReceipt
  dsimp only []
  simp only [hq1, hc1, hq2, hc2, hc3, hc4, hacts, hgp, hc6, hhdr, hspec, hinp, hargs, hdec,
    List.append_eq, List.cons_append, List.nil_append]
  by_cases hz : callee = zeroAddress
  · rw [if_pos hz, if_pos hz]
  · rw [if_neg hz, if_neg hz]

/-! ## Claim theorems -/

/-- C1: for a successfully reconstructed receipt, `ContractAddress` is the raw
bytes of the response payload's payload field exactly when the decoded first
invocation argument is the 20-byte zero address, and is empty otherwise. -/
theorem C1_contract_address_iff_creation
    (gw : Gateway) (codec : ProtoCodec) (param : DataParam)
    (tb bb : GoStr) (tx : ProcessedTransaction) (blk : Block) (hdr : BlockHeader)
    (pl : Payload) (txa : Transaction) (act : TransactionAction)
    (rest : List TransactionAction)
    (ccpp : ChaincodeProposalPayload) (resp : ChaincodeAction)
    (ispec : ChaincodeInvocationSpec) (ccSpec : ChaincodeSpec) (inp : ChaincodeInput)
    (a0 : GoStr) (arest : List GoStr) (callee : GoStr)
    (r : TxReceipt) (ev : List Event)
    (hq1 : gw.query qsccName getTxByIDName [channelID, param] = (tb, none))
    (hc1 : codec.processedTransaction tb = Except.ok tx)
    (hq2 : gw.query qsccName getBlockByTxIDName [channelID, param] = (bb, none))
    (hc2 : codec.block bb = Except.ok blk)
    (hc3 : codec.payload (envelopePayload tx.TransactionEnvelope) = Except.ok pl)
    (hc4 : codec.transaction pl.Data = Except.ok txa)
    (hacts : txa.Actions = act :: rest)
    (hgp : GetPayloads codec act = Except.ok (ccpp, resp))
    (hc6 : codec.chaincodeInvocationSpec ccpp.Input = Except.ok ispec)
    (hhdr : blk.Header = some hdr)
    (hspec : ispec.ChaincodeSpec = some ccSpec)
    (hinp : ccSpec.Input = some inp)
    (hargs : inp.Args = a0 :: arest)
    (hdec : hexDecodeString a0 = Except.ok callee)
    (hrun : GetTransactionReceipt gw codec param = (Outcome.ok r, ev)) :
    r.ContractAddress = (if callee = zeroAddress then responsePayloadOf resp else []) := by
  have h := (receipt_ok_spec gw codec param tb bb tx blk hdr pl txa act rest ccpp resp
    ispec ccSpec inp a0 arest callee hq1 hc1 hq2 hc2 hc3 hc4 hacts hgp hc6 hhdr
    hspec hinp hargs hdec).symm.trans hrun
  injection h with h1 h2
  injection h1 with h1
  rw [← h1]

/-- C2: for a successfully reconstructed receipt, `TransactionHash` echoes the
input identifier, `BlockHash` is the hex of the header hash, `BlockNumber` is
the decimal string of the header height, and both gas fields are `0`. -/
theorem C2_receipt_fields
    (gw : Gateway) (codec : ProtoCodec) (param : DataParam)
    (tb bb : GoStr) (tx : ProcessedTransaction) (blk : Block) (hdr : BlockHeader)
    (pl : Payload) (txa : Transaction) (act : TransactionAction)
    (rest : List TransactionAction)
    (ccpp : ChaincodeProposalPayload) (resp : ChaincodeAction)
    (ispec : ChaincodeInvocationSpec) (ccSpec : ChaincodeSpec) (inp : ChaincodeInput)
    (a0 : GoStr) (arest : List GoStr) (callee : GoStr)
    (r : TxReceipt) (ev : List Event)
    (hq1 : gw.query qsccName getTxByIDName [channelID, param] = (tb, none))
    (hc1 : codec.processedTransaction tb = Except.ok tx)
    (hq2 : gw.query qsccName getBlockByTxIDName [channelID, param] = (bb, none))
    (hc2 : codec.block bb = Except.ok blk)
    (hc3 : codec.payload (envelopePayload tx.TransactionEnvelope) = Except.ok pl)
    (hc4 : codec.transaction pl.Data = Except.ok txa)
    (hacts : txa.Actions = act :: rest)
    (hgp : GetPayloads codec act = Except.ok (ccpp, resp))
    (hc6 : codec.chaincodeInvocationSpec ccpp.Input = Except.ok ispec)
    (hhdr : blk.Header = some hdr)
    (hspec : ispec.ChaincodeSpec = some ccSpec)
    (hinp : ccSpec.Input = some inp)
    (hargs : inp.Args = a0 :: arest)
    (hdec : hexDecodeString a0 = Except.ok callee)
    (hrun : GetTransactionReceipt gw codec param = (Outcome.ok r, ev)) :
    r.TransactionHash = param ∧ r.BlockHash = hexEncodeToString hdr.HashValue
    ∧ r.BlockNumber = formatUint10 hdr.Number ∧ r.GasUsed = 0
    ∧ r.CumulativeGasUsed = 0 := by
  have h := (receipt_ok_spec gw codec param tb bb tx blk hdr pl txa act rest ccpp resp
    ispec ccSpec inp a0 arest callee hq1 hc1 hq2 hc2 hc3 hc4 hacts hgp hc6 hhdr
    hspec hinp hargs hdec).symm.trans hrun
  injection h with h1 h2
  injection h1 with h1
  rw [← h1]
  exact ⟨rfl, rfl, rfl, rfl, rfl⟩

/-- C1 witness: in the concrete creation world the contract address is the
response payload bytes. -/
theorem C1_witness :
    wReceiptCreate.ContractAddress =
      (if zeroAddress = zeroAddress then responsePayloadOf wCA else []) :=
  C1_contract_address_iff_creation wGw wCodec wParam wQVal wQVal wTx wBlock wHdr
    wPayload wTxa wAct [] wCCPP wCA wSpecCreate
    { Input := some { Args := [wZeroHex] } } { Args := [wZeroHex] }
    wZeroHex [] zeroAddress wReceiptCreate wReceiptEvents
    rfl rfl rfl rfl rfl rfl rfl rfl rfl rfl rfl rfl rfl rfl rfl

/-- C2 witness: the concrete receipt has all the claimed fields. -/
theorem C2_witness :
    wReceiptCreate.TransactionHash = wParam
    ∧ wReceiptCreate.BlockHash = hexEncodeToString wHdr.HashValue
    ∧ wReceiptCreate.BlockNumber = formatUint10 wHdr.Number
    ∧ wReceiptCreate.GasUsed = 0 ∧ wReceiptCreate.CumulativeGasUsed = 0 :=
  C2_receipt_fields wGw wCodec wParam wQVal wQVal wTx wBlock wHdr
    wPayload wTxa wAct [] wCCPP wCA wSpecCreate
    { Input := some { Args := [wZeroHex] } } { Args := [wZeroHex] }
    wZeroHex [] zeroAddress wReceiptCreate wReceiptEvents
    rfl rfl rfl rfl rfl rfl rfl rfl rfl rfl rfl rfl rfl rfl rfl

/-- C3: what the code actually does for missing substructure — a nil endorsed
action or a nil extension is returned as an error, but an EMPTY action list or
an EMPTY invocation argument list hits `actions[0]` / `args[0]` and panics
(index out of range), contradicting the claim that a MissingDataError is
returned and never a panic. -/
theorem C3_missing_substructure_behaviour :
    (GetTransactionReceipt wGw wCodecEmptyActions wParam).fst = Outcome.panic indexOutOfRangeMsg
    ∧ (GetTransactionReceipt wGw wCodecEmptyArgs wParam).fst = Outcome.panic indexOutOfRangeMsg
    ∧ (GetTransactionReceipt wGw wCodecNoExtension wParam).fst = Outcome.err errMissingExtensionMsg
    ∧ GetPayloads wCodecNoAction wAct = Except.error errNoPayloadMsg :=
  ⟨rfl, rfl, rfl, rfl⟩

/-- C4: what the code actually does when a ledger query or invoke fails —
`Call`, `SendTransaction`, `GetTransactionReceipt` and `Accounts` return the
failure as an error, but `GetCode` only logs it and returns the query's raw
value with a nil error, contradicting the claim that every failure is
returned as an error for every operation. -/
theorem C4_query_failure_propagation :
    (GetCode wGwQFail wParam).fst = Outcome.ok wQVal
    ∧ (Call wGwQFail wParamsTo).fst = Outcome.err wQErr
    ∧ (SendTransaction wGwQFail wParamsTo).fst = Outcome.err wQErr
    ∧ (Accounts wGwQFail).fst = Outcome.err wQErr
    ∧ (GetTransactionReceipt wGwQFail wCodec wParam).fst = Outcome.err wQErr :=
  ⟨rfl, rfl, rfl, rfl, rfl⟩


/-- C5: a successful `GetCode` returns the raw bytes of the ledger query reply
with no prefix added, while a successful `Call` returns `0x` followed by the
hex encoding of the reply — the encoding asymmetry, for all inputs. -/
theorem C5_encoding_asymmetry :
    (∀ (gw : Gateway) (a : DataParam) (v : GoStr), gw.newClientErr = none →
       gw.query evmsccName getCodeFcn [Strip0xFromHex a] = (v, none) →
       (GetCode gw a).fst = Outcome.ok v)
    ∧ (∀ (gw : Gateway) (p : Params) (v : GoStr), gw.newClientErr = none →
       gw.query evmsccName (Strip0xFromHex p.To) [Strip0xFromHex p.Data] = (v, none) →
       (Call gw p).fst = Outcome.ok (lit0x ++ hexEncodeToString v)) := by
  constructor
  · intro gw a v hc hq
    unfold GetCode
    rw [hc]
    simp only [hq]
  · intro gw p v hc hq
    unfold Call
    rw [hc]
    simp only [hq]

/-- C5 witness. -/
theorem C5_witness :
    (GetCode wGw wParam).fst = Outcome.ok wQVal
    ∧ (Call wGw wParamsTo).fst = Outcome.ok (lit0x ++ hexEncodeToString wQVal) :=
  ⟨C5_encoding_asymmetry.1 wGw wParam wQVal rfl rfl,
   C5_encoding_asymmetry.2 wGw wParamsTo wQVal rfl rfl⟩

/-- C6: `SendTransaction` with empty `To` targets the stripped hex encoding of
the zero address (forty `'0'` characters) as the invocation function name, and
echoes the transaction identifier returned by the invoke. -/
theorem C6_sendtransaction_empty_to :
    Strip0xFromHex (hexEncodeToString zeroAddress) = List.replicate 40 '0'
    ∧ ∀ (gw : Gateway) (p : Params) (tid : GoStr), p.To = [] → gw.newClientErr = none →
        gw.executeTx evmsccName (List.replicate 40 '0') [Strip0xFromHex p.Data] = (tid, none) →
        (SendTransaction gw p).fst = Outcome.ok tid
        ∧ Event.executeTx evmsccName (List.replicate 40 '0') [Strip0xFromHex p.Data]
            ∈ (SendTransaction gw p).snd := by
  constructor
  · rfl
  · intro gw p tid hTo hc hex
    unfold SendTransaction
    rw [hc]
    simp only [hTo, if_pos,
      show Strip0xFromHex (hexEncodeToString zeroAddress) = List.replicate 40 '0' from rfl, hex]
    exact ⟨trivial, by simp⟩

/-- C6 witness. -/
theorem C6_witness :
    (SendTransaction wGw wParamsEmpty).fst = Outcome.ok wTid
    ∧ Event.executeTx evmsccName (List.replicate 40 '0') [Strip0xFromHex wParamsEmpty.Data]
        ∈ (SendTransaction wGw wParamsEmpty).snd :=
  C6_sendtransaction_empty_to.2 wGw wParamsEmpty wTid rfl rfl rfl

/-- C7: `Strip0xFromHex` returns the substring following the last occurrence
of `0x` (the string unchanged when `0x` is absent), and in particular maps
`0x1234` to `1234`, `1234` to `1234`, and `0xab0xcd` to `cd`. -/
theorem C7_strip_last_occurrence :
    (∀ s : GoStr, Strip0xFromHex s = spec_strip0x s)
    ∧ Strip0xFromHex ex0x1234 = ex1234
    ∧ Strip0xFromHex ex1234 = ex1234
    ∧ Strip0xFromHex exMulti0x = exCd :=
  ⟨strip_eq_spec, by decide, by decide, by decide⟩

/-- C8 counterexample: with a failing `NewChannelClient`, `GetTransactionReceipt`
does not return the connection failure as an error — it ignores it and proceeds
(here: succeeds), so the claim's recoverable-error clause is false for it. -/
theorem C8_counterexample :
    wGwConnFail.newClientErr = some wConnErr
    ∧ (GetTransactionReceipt wGwConnFail wCodec wParam).fst = Outcome.ok wReceiptCreate
    ∧ (GetTransactionReceipt wGwConnFail wCodec wParam).fst ≠ Outcome.err wConnErr :=
  ⟨rfl, rfl, by decide⟩

/-- C8 amended: `Call` and `SendTransaction` return a connection failure as a
normal error; exactly two call sites (`GetCode`, `Accounts`) are a fatal
`log.Panic`; `GetTransactionReceipt` discards the failure entirely and behaves
as if the connection had succeeded. -/
theorem C8_connection_failure_paths :
    (∀ (gw : Gateway) (e : GoStr) (a : DataParam), gw.newClientErr = some e →
       (GetCode gw a).fst = Outcome.panic (errCreatingClientMsg ++ e))
    ∧ (∀ (gw : Gateway) (e : GoStr), gw.newClientErr = some e →
       (Accounts gw).fst = Outcome.panic (errCreatingClientMsg ++ e))
    ∧ (∀ (gw : Gateway) (e : GoStr) (p : Params), gw.newClientErr = some e →
       (Call gw p).fst = Outcome.err e)
    ∧ (∀ (gw : Gateway) (e : GoStr) (p : Params), gw.newClientErr = some e →
       (SendTransaction gw p).fst = Outcome.err e)
    ∧ (∀ (gw : Gateway) (codec : ProtoCodec) (param : DataParam),
       GetTransactionReceipt gw codec param
         = GetTransactionReceipt { gw with newClientErr := none } codec param) := by
  refine ⟨?_, ?_, ?_, ?_, ?_⟩
  · intro gw e a h
    unfold GetCode
    rw [h]
  · intro gw e h
    unfold Accounts
    rw [h]
  · intro gw e p h
    unfold Call
    rw [h]
  · intro gw e p h
    unfold SendTransaction
    rw [h]
  · intro gw codec param
    rfl

/-- C8 witness. -/
theorem C8_witness :
    (GetCode wGwConnFail wParam).fst = Outcome.panic (errCreatingClientMsg ++ wConnErr)
    ∧ (Accounts wGwConnFail).fst = Outcome.panic (errCreatingClientMsg ++ wConnErr)
    ∧ (Call wGwConnFail wParamsTo).fst = Outcome.err wConnErr
    ∧ (SendTransaction wGwConnFail wParamsTo).fst = Outcome.err wConnErr
    ∧ GetTransactionReceipt wGwConnFail wCodec wParam
        = GetTransactionReceipt { wGwConnFail with newClientErr := none } wCodec wParam :=
  ⟨C8_connection_failure_paths.1 wGwConnFail wConnErr wParam rfl,
   C8_connection_failure_paths.2.1 wGwConnFail wConnErr rfl,
   C8_connection_failure_paths.2.2.1 wGwConnFail wConnErr wParamsTo rfl,
   C8_connection_failure_paths.2.2.2.1 wGwConnFail wConnErr wParamsTo rfl,
   C8_connection_failure_paths.2.2.2.2 wGwConnFail wCodec wParam⟩


/-- C9 counterexample: a successful `GetTransactionReceipt` run returns with
no `Close` ever issued on the acquired channel client, refuting the claim
that every operation releases the context on every exit path. -/
theorem C9_counterexample :
    (GetTransactionReceipt wGw wCodec wParam).fst = Outcome.ok wReceiptCreate
    ∧ Event.close ∉ (GetTransactionReceipt wGw wCodec wParam).snd :=
  ⟨rfl, by decide⟩

/-- C9 amended: `GetCode`, `Call`, `SendTransaction` and `Accounts` release
the acquired context (via `defer Close`) on every return path after a
successful acquisition, but `GetTransactionReceipt` never does. -/
theorem C9_close_on_exit :
    (∀ (gw : Gateway) (a : DataParam), gw.newClientErr = none →
       Event.close ∈ (GetCode gw a).snd)
    ∧ (∀ (gw : Gateway) (p : Params), gw.newClientErr = none →
       Event.close ∈ (Call gw p).snd)
    ∧ (∀ (gw : Gateway) (p : Params), gw.newClientErr = none →
       Event.close ∈ (SendTransaction gw p).snd)
    ∧ (∀ gw : Gateway, gw.newClientErr = none →
       Event.close ∈ (Accounts gw).snd)
    ∧ (∀ (gw : Gateway) (codec : ProtoCodec) (param : DataParam),
       Event.close ∉ (GetTransactionReceipt gw codec param).snd) := by
  refine ⟨?_, ?_, ?_, ?_, ?_⟩
  · intro gw a h
    unfold GetCode
    rcases hq : gw.query evmsccName getCodeFcn [Strip0xFromHex a] with ⟨v, qe⟩
    rw [h]
    cases qe <;> simp
  · intro gw p h
    unfold Call
    rcases hq : gw.query evmsccName (Strip0xFromHex p.To) [Strip0xFromHex p.Data] with ⟨v, qe⟩
    rw [h]
    cases qe <;> simp
  · intro gw p h
    unfold SendTransaction
    rw [h]
    by_cases ht : p.To = []
    · rw [if_pos ht]
      rcases hq : gw.executeTx evmsccName (Strip0xFromHex (hexEncodeToString zeroAddress))
        [Strip0xFromHex p.Data] with ⟨v, qe⟩
      cases qe <;> simp
    · rw [if_neg ht]
      rcases hq : gw.executeTx evmsccName (Strip0xFromHex p.To)
        [Strip0xFromHex p.Data] with ⟨v, qe⟩
      cases qe <;> simp
  · intro gw h
    unfold Accounts
    rcases hq : gw.query evmsccName accountFcn [] with ⟨v, qe⟩
    rw [h]
    cases qe <;> simp
  · intro gw codec param
    unfold GetTransactionReceipt
    dsimp only []
    repeat' split
    all_goals simp

/-- C9 witness. -/
theorem C9_witness :
    Event.close ∈ (GetCode wGw wParam).snd
    ∧ Event.close ∈ (Call wGw wParamsTo).snd
    ∧ Event.close ∈ (SendTransaction wGw wParamsTo).snd
    ∧ Event.close ∈ (Accounts wGw).snd
    ∧ Event.close ∉ (GetTransactionReceipt wGw wCodec wParam).snd :=
  ⟨C9_close_on_exit.1 wGw wParam rfl,
   C9_close_on_exit.2.1 wGw wParamsTo rfl,
   C9_close_on_exit.2.2.1 wGw wParamsTo rfl,
   C9_close_on_exit.2.2.2.1 wGw rfl,
   C9_close_on_exit.2.2.2.2 wGw wCodec wParam⟩

/-- C10: any string ending in `0x` strips to the empty string, and a `Call` or
`SendTransaction` whose `To` is exactly `0x` issues its ledger call with an
empty function name instead of failing. -/
theorem C10_trailing_0x :
    (∀ t : GoStr, Strip0xFromHex (t ++ lit0x) = [])
    ∧ (∀ (gw : Gateway) (p : Params), gw.newClientErr = none → p.To = lit0x →
       Event.query evmsccName [] [Strip0xFromHex p.Data] ∈ (Call gw p).snd)
    ∧ (∀ (gw : Gateway) (p : Params), gw.newClientErr = none → p.To = lit0x →
       Event.executeTx evmsccName [] [Strip0xFromHex p.Data] ∈ (SendTransaction gw p).snd) := by
  refine ⟨strip_append_0x, ?_, ?_⟩
  · intro gw p hc hTo
    unfold Call
    rw [hc, hTo, show Strip0xFromHex lit0x = ([] : GoStr) from rfl]
    rcases hq : gw.query evmsccName [] [Strip0xFromHex p.Data] with ⟨v, qe⟩
    cases qe <;> simp
  · intro gw p hc hTo
    unfold SendTransaction
    rw [hc, hTo, if_neg (show ¬lit0x = ([] : GoStr) from by decide),
      show Strip0xFromHex lit0x = ([] : GoStr) from rfl]
    rcases hq : gw.executeTx evmsccName [] [Strip0xFromHex p.Data] with ⟨v, qe⟩
    cases qe <;> simp

/-- C10 witness. -/
theorem C10_witness :
    Strip0xFromHex (wParam ++ lit0x) = []
    ∧ Event.query evmsccName [] [Strip0xFromHex wParamsTo0x.Data] ∈ (Call wGw wParamsTo0x).snd
    ∧ Event.executeTx evmsccName [] [Strip0xFromHex wParamsTo0x.Data]
        ∈ (SendTransaction wGw wParamsTo0x).snd :=
  ⟨C10_trailing_0x.1 wParam,
   C10_trailing_0x.2.1 wGw wParamsTo0x rfl rfl,
   C10_trailing_0x.2.2 wGw wParamsTo0x rfl rfl⟩

end ethserver
